import Mathlib

/-
Shallow embedding of the d2q9-bgk lattice Boltzmann program
(src/d2q9-bgk.c) and theorems checking its specification.

Modelling conventions:
* C `float` values are modelled by exact rationals (ℚ); floating-point
  rounding is outside the model, exact arithmetic stands in for it.
* the nine structure-of-arrays distribution fields (struct soa) become
  nine total functions ℕ → ℚ over the flat row-major index ii + jj*nx;
  indices at or beyond nx*ny lie outside the allocated arrays, the
  model leaves the source buffer unchanged there.
* the C library function sqrtf is kept as an explicit abstract function
  parameter (sqrtf : ℚ → ℚ) of every definition that calls it, so the
  development stays computable; theorems hold for every interpretation.
* the obstacle array of C ints is modelled as ℕ → Bool (nonzero = true).
-/

namespace D2Q9

/-- Parameter record, mirroring struct t_param of the source. -/
structure t_param where
  nx : ℕ
  ny : ℕ
  maxIters : ℕ
  reynolds_dim : ℕ
  density : ℚ
  accel : ℚ
  omega : ℚ

/-- Structure-of-arrays distribution buffer, mirroring struct soa:
nine direction fields over the flat row-major cell index. -/
structure soa where
  s0 : ℕ → ℚ
  s1 : ℕ → ℚ
  s2 : ℕ → ℚ
  s3 : ℕ → ℚ
  s4 : ℕ → ℚ
  s5 : ℕ → ℚ
  s6 : ℕ → ℚ
  s7 : ℕ → ℚ
  s8 : ℕ → ℚ

/-- The nine per-cell speed values (the t0..t8 locals of the kernel). -/
structure speeds where
  v0 : ℚ
  v1 : ℚ
  v2 : ℚ
  v3 : ℚ
  v4 : ℚ
  v5 : ℚ
  v6 : ℚ
  v7 : ℚ
  v8 : ℚ

/-- Sum of the nine speeds in source order: the local_density accumulation
of collision/av_velocity/write_values and av_local_density of fusion. -/
def sumSpeeds (t : speeds) : ℚ :=
  t.v0 + t.v1 + t.v2 + t.v3 + t.v4 + t.v5 + t.v6 + t.v7 + t.v8

/-- Square of the speed of sound, the local c_sq = 1.f/3.f. -/
def c_sq : ℚ := 1 / 3

/-- Weighting factor w0 = 4.f/9.f of collision. -/
def w0 : ℚ := 4 / 9

/-- Weighting factor w1 = 1.f/9.f of collision. -/
def w1 : ℚ := 1 / 9

/-- Weighting factor w2 = 1.f/36.f of collision. -/
def w2 : ℚ := 1 / 36

/-- x velocity component of a cell (collision lines 356-362, av_velocity
lines 457-463, write_values lines 1054-1060, fusion lines 752-758). -/
def u_x (t : speeds) : ℚ :=
  (t.v1 + t.v5 + t.v8 - (t.v3 + t.v6 + t.v7)) / sumSpeeds t

/-- y velocity component of a cell (collision lines 364-370 and the
matching computations elsewhere). -/
def u_y (t : speeds) : ℚ :=
  (t.v2 + t.v5 + t.v6 - (t.v4 + t.v7 + t.v8)) / sumSpeeds t

/-- The relaxation step g_k = t_k + omega * (d_k - t_k), applied
componentwise (collision lines 419-424, fusion lines 704-747). -/
def relax (omega : ℚ) (d t : speeds) : speeds where
  v0 := t.v0 + omega * (d.v0 - t.v0)
  v1 := t.v1 + omega * (d.v1 - t.v1)
  v2 := t.v2 + omega * (d.v2 - t.v2)
  v3 := t.v3 + omega * (d.v3 - t.v3)
  v4 := t.v4 + omega * (d.v4 - t.v4)
  v5 := t.v5 + omega * (d.v5 - t.v5)
  v6 := t.v6 + omega * (d.v6 - t.v6)
  v7 := t.v7 + omega * (d.v7 - t.v7)
  v8 := t.v8 + omega * (d.v8 - t.v8)

/-- Equilibrium densities d_equ of the collision function
(lines 387-416), with the directional projections u[1..8] inlined. -/
def d_equ (t : speeds) : speeds :=
  let local_density := sumSpeeds t
  let ux := u_x t
  let uy := u_y t
  let usq := ux * ux + uy * uy
  { v0 := w0 * local_density * (1 - usq / (2 * c_sq))
    v1 := w1 * local_density * (1 + ux / c_sq
            + (ux * ux) / (2 * c_sq * c_sq) - usq / (2 * c_sq))
    v2 := w1 * local_density * (1 + uy / c_sq
            + (uy * uy) / (2 * c_sq * c_sq) - usq / (2 * c_sq))
    v3 := w1 * local_density * (1 + (-ux) / c_sq
            + ((-ux) * (-ux)) / (2 * c_sq * c_sq) - usq / (2 * c_sq))
    v4 := w1 * local_density * (1 + (-uy) / c_sq
            + ((-uy) * (-uy)) / (2 * c_sq * c_sq) - usq / (2 * c_sq))
    v5 := w2 * local_density * (1 + (ux + uy) / c_sq
            + ((ux + uy) * (ux + uy)) / (2 * c_sq * c_sq) - usq / (2 * c_sq))
    v6 := w2 * local_density * (1 + (-ux + uy) / c_sq
            + ((-ux + uy) * (-ux + uy)) / (2 * c_sq * c_sq) - usq / (2 * c_sq))
    v7 := w2 * local_density * (1 + (-ux - uy) / c_sq
            + ((-ux - uy) * (-ux - uy)) / (2 * c_sq * c_sq) - usq / (2 * c_sq))
    v8 := w2 * local_density * (1 + (ux - uy) / c_sq
            + ((ux - uy) * (ux - uy)) / (2 * c_sq * c_sq) - usq / (2 * c_sq)) }

/-- Per-cell BGK collision of the collision function (lines 329-430):
relaxation of the post-stream values toward the computed equilibrium. -/
def collision_cell (omega : ℚ) (t : speeds) : speeds :=
  relax omega (d_equ t) t

/-- The d_equ values on the reachable fluid path of fusion: the source
(lines 663-673) assigns the constant 1.0f to every entry (written there
to the array `d`, read back as `d_equ`; the surrounding full equilibrium
computation is commented out). -/
def d_equ_fusion : speeds where
  v0 := 1
  v1 := 1
  v2 := 1
  v3 := 1
  v4 := 1
  v5 := 1
  v6 := 1
  v7 := 1
  v8 := 1

/-- The local w1 = density * accel / 9.f of accelerate_flow (line 240). -/
def accelW1 (params : t_param) : ℚ := params.density * params.accel / 9

/-- The local w2 = density * accel / 36.f of accelerate_flow (line 241). -/
def accelW2 (params : t_param) : ℚ := params.density * params.accel / 36

/-- Guard of the accelerate_flow body (lines 251-254): the cell on row
ny - 2 at column ii is not occupied and none of the three decremented
components would be driven to zero or below. -/
def accelGuard (params : t_param) (obstacles : ℕ → Bool) (grid : soa)
    (ii : ℕ) : Bool :=
  let n := ii + (params.ny - 2) * params.nx
  !obstacles n
    && decide (grid.s3 n - accelW1 params > 0)
    && decide (grid.s6 n - accelW2 params > 0)
    && decide (grid.s7 n - accelW2 params > 0)

/-- One iteration of the accelerate_flow column loop (lines 246-265):
if the guard holds, increase the east-side and decrease the west-side
densities of the cell at column ii of row ny - 2. -/
def accelCell (params : t_param) (obstacles : ℕ → Bool) (grid : soa)
    (ii : ℕ) : soa :=
  let n := ii + (params.ny - 2) * params.nx
  if accelGuard params obstacles grid ii then
    { grid with
      s1 := Function.update grid.s1 n (grid.s1 n + accelW1 params)
      s5 := Function.update grid.s5 n (grid.s5 n + accelW2 params)
      s8 := Function.update grid.s8 n (grid.s8 n + accelW2 params)
      s3 := Function.update grid.s3 n (grid.s3 n - accelW1 params)
      s6 := Function.update grid.s6 n (grid.s6 n - accelW2 params)
      s7 := Function.update grid.s7 n (grid.s7 n - accelW2 params) }
  else grid

/-- accelerate_flow (lines 234-269): the column loop over row ny - 2. -/
def accelerate_flow (params : t_param) (obstacles : ℕ → Bool)
    (grid : soa) : soa :=
  (List.range params.nx).foldl (accelCell params obstacles) grid

/-- East neighbour column x_e = (ii + 1) % nx with periodic wrap. -/
def x_e (nx ii : ℕ) : ℕ := (ii + 1) % nx

/-- West neighbour column x_w = (ii == 0) ? ii + nx - 1 : ii - 1. -/
def x_w (nx ii : ℕ) : ℕ := if ii = 0 then ii + nx - 1 else ii - 1

/-- North neighbour row y_n = (jj + 1) % ny with periodic wrap. -/
def y_n (ny jj : ℕ) : ℕ := (jj + 1) % ny

/-- South neighbour row y_s = (jj == 0) ? jj + ny - 1 : jj - 1. -/
def y_s (ny jj : ℕ) : ℕ := if jj = 0 then jj + ny - 1 else jj - 1

/-- The pull-style streaming gather of fusion (lines 563-579): the nine
incoming distributions t0..t8 of cell (ii, jj), read from the current
buffer along their directions of travel. -/
def stream (params : t_param) (grid : soa) (ii jj : ℕ) : speeds where
  v0 := grid.s0 (ii + jj * params.nx)
  v1 := grid.s1 (x_w params.nx ii + jj * params.nx)
  v2 := grid.s2 (ii + y_s params.ny jj * params.nx)
  v3 := grid.s3 (x_e params.nx ii + jj * params.nx)
  v4 := grid.s4 (ii + y_n params.ny jj * params.nx)
  v5 := grid.s5 (x_w params.nx ii + y_s params.ny jj * params.nx)
  v6 := grid.s6 (x_e params.nx ii + y_s params.ny jj * params.nx)
  v7 := grid.s7 (x_e params.nx ii + y_n params.ny jj * params.nx)
  v8 := grid.s8 (x_w params.nx ii + y_n params.ny jj * params.nx)

/-- Bounce-back mirroring at an obstacle cell (fusion lines 592-607):
each opposite pair of streamed values is swapped, the rest value kept. -/
def rebound (t : speeds) : speeds where
  v0 := t.v0
  v1 := t.v3
  v2 := t.v4
  v3 := t.v1
  v4 := t.v2
  v5 := t.v7
  v6 := t.v8
  v7 := t.v5
  v8 := t.v6

/-- The nine values the fused kernel writes to the scratch buffer at cell
(ii, jj): streamed values mirrored at an obstacle, otherwise relaxed
toward the constant-ones d_equ of the reachable source path. -/
def fusionCell (params : t_param) (obstacles : ℕ → Bool) (grid : soa)
    (ii jj : ℕ) : speeds :=
  let t := stream params grid ii jj
  if obstacles (jj * params.nx + ii) then rebound t
  else relax params.omega d_equ_fusion t

/-- The scratch buffer contents after one invocation of fusion: every
in-range flat index n decodes to its unique cell (n % nx, n / nx);
indices outside the nx*ny cells are not written by the loop. -/
def fusion_grid (params : t_param) (obstacles : ℕ → Bool)
    (grid : soa) : soa where
  s0 := fun n => if n < params.nx * params.ny then
    (fusionCell params obstacles grid (n % params.nx) (n / params.nx)).v0
    else grid.s0 n
  s1 := fun n => if n < params.nx * params.ny then
    (fusionCell params obstacles grid (n % params.nx) (n / params.nx)).v1
    else grid.s1 n
  s2 := fun n => if n < params.nx * params.ny then
    (fusionCell params obstacles grid (n % params.nx) (n / params.nx)).v2
    else grid.s2 n
  s3 := fun n => if n < params.nx * params.ny then
    (fusionCell params obstacles grid (n % params.nx) (n / params.nx)).v3
    else grid.s3 n
  s4 := fun n => if n < params.nx * params.ny then
    (fusionCell params obstacles grid (n % params.nx) (n / params.nx)).v4
    else grid.s4 n
  s5 := fun n => if n < params.nx * params.ny then
    (fusionCell params obstacles grid (n % params.nx) (n / params.nx)).v5
    else grid.s5 n
  s6 := fun n => if n < params.nx * params.ny then
    (fusionCell params obstacles grid (n % params.nx) (n / params.nx)).v6
    else grid.s6 n
  s7 := fun n => if n < params.nx * params.ny then
    (fusionCell params obstacles grid (n % params.nx) (n / params.nx)).v7
    else grid.s7 n
  s8 := fun n => if n < params.nx * params.ny then
    (fusionCell params obstacles grid (n % params.nx) (n / params.nx)).v8
    else grid.s8 n

/-- Contribution of cell (ii, jj) to the tot_cells counter of fusion:
obstacle cells are skipped, fluid cells count once (line 773). -/
def cellCount (params : t_param) (obstacles : ℕ → Bool) (ii jj : ℕ) : ℕ :=
  if obstacles (jj * params.nx + ii) then 0 else 1

/-- Contribution of cell (ii, jj) to the tot_u accumulator of fusion
(line 771): zero at an obstacle, otherwise the norm of the velocity
computed from the just-written (relaxed) values with their accumulated
av_local_density. -/
def cellU (sqrtf : ℚ → ℚ) (params : t_param) (obstacles : ℕ → Bool)
    (grid : soa) (ii jj : ℕ) : ℚ :=
  if obstacles (jj * params.nx + ii) then 0
  else
    let g := relax params.omega d_equ_fusion (stream params grid ii jj)
    sqrtf (u_x g * u_x g + u_y g * u_y g)

/-- The tot_cells counter accumulated by the fused kernel's cell loop. -/
def fusion_tot_cells (params : t_param) (obstacles : ℕ → Bool) : ℕ :=
  Finset.sum (Finset.range params.ny) (fun jj =>
    Finset.sum (Finset.range params.nx) (fun ii =>
      cellCount params obstacles ii jj))

/-- The tot_u accumulator of the fused kernel's cell loop. -/
def fusion_tot_u (sqrtf : ℚ → ℚ) (params : t_param)
    (obstacles : ℕ → Bool) (grid : soa) : ℚ :=
  Finset.sum (Finset.range params.ny) (fun jj =>
    Finset.sum (Finset.range params.nx) (fun ii =>
      cellU sqrtf params obstacles grid ii jj))

/-- Return value of fusion (line 783): tot_u / (float)tot_cells, with no
guard on the count. -/
def fusion (sqrtf : ℚ → ℚ) (params : t_param) (obstacles : ℕ → Bool)
    (grid : soa) : ℚ :=
  fusion_tot_u sqrtf params obstacles grid
    / (fusion_tot_cells params obstacles : ℚ)

/-- The nine distribution values of cell (ii, jj) read in place (the
direct reads of av_velocity and write_values). -/
def readCell (params : t_param) (grid : soa) (ii jj : ℕ) : speeds where
  v0 := grid.s0 (ii + jj * params.nx)
  v1 := grid.s1 (ii + jj * params.nx)
  v2 := grid.s2 (ii + jj * params.nx)
  v3 := grid.s3 (ii + jj * params.nx)
  v4 := grid.s4 (ii + jj * params.nx)
  v5 := grid.s5 (ii + jj * params.nx)
  v6 := grid.s6 (ii + jj * params.nx)
  v7 := grid.s7 (ii + jj * params.nx)
  v8 := grid.s8 (ii + jj * params.nx)

/-- Contribution of cell (ii, jj) to tot_u in av_velocity (lines 441-477):
zero at an obstacle, otherwise the norm of the cell velocity. -/
def av_cellU (sqrtf : ℚ → ℚ) (params : t_param) (obstacles : ℕ → Bool)
    (grid : soa) (ii jj : ℕ) : ℚ :=
  if obstacles (ii + jj * params.nx) then 0
  else
    let t := readCell params grid ii jj
    sqrtf (u_x t * u_x t + u_y t * u_y t)

/-- The tot_cells counter of av_velocity. -/
def av_tot_cells (params : t_param) (obstacles : ℕ → Bool) : ℕ :=
  Finset.sum (Finset.range params.ny) (fun jj =>
    Finset.sum (Finset.range params.nx) (fun ii =>
      if obstacles (ii + jj * params.nx) then 0 else 1))

/-- The tot_u accumulator of av_velocity. -/
def av_tot_u (sqrtf : ℚ → ℚ) (params : t_param) (obstacles : ℕ → Bool)
    (grid : soa) : ℚ :=
  Finset.sum (Finset.range params.ny) (fun jj =>
    Finset.sum (Finset.range params.nx) (fun ii =>
      av_cellU sqrtf params obstacles grid ii jj))

/-- av_velocity (lines 432-481): tot_u / (float)tot_cells, unguarded. -/
def av_velocity (sqrtf : ℚ → ℚ) (params : t_param)
    (obstacles : ℕ → Bool) (grid : soa) : ℚ :=
  av_tot_u sqrtf params obstacles grid
    / (av_tot_cells params obstacles : ℚ)

/-- Kinematic viscosity of calc_reynolds (line 992). -/
def viscosity (params : t_param) : ℚ := 1 / 6 * (2 / params.omega - 1)

/-- calc_reynolds (lines 990-995). -/
def calc_reynolds (sqrtf : ℚ → ℚ) (params : t_param)
    (obstacles : ℕ → Bool) (grid : soa) : ℚ :=
  av_velocity sqrtf params obstacles grid * (params.reynolds_dim : ℚ)
    / viscosity params

/-- The grid effect of one timestep (lines 228-232): accelerate_flow on
the current buffer, then fusion writing the scratch buffer; after the
driver swap the scratch contents are the next current buffer. -/
def timestep_grid (params : t_param) (obstacles : ℕ → Bool)
    (grid : soa) : soa :=
  fusion_grid params obstacles (accelerate_flow params obstacles grid)

/-- The average velocity returned by one timestep (line 231). -/
def timestep_av (sqrtf : ℚ → ℚ) (params : t_param)
    (obstacles : ℕ → Bool) (grid : soa) : ℚ :=
  fusion sqrtf params obstacles (accelerate_flow params obstacles grid)

/-- State of the current buffer after t iterations of the driver loop
(lines 186-200), the swaps accounted for. -/
def run_grid (params : t_param) (obstacles : ℕ → Bool) (grid : soa) :
    ℕ → soa
  | 0 => grid
  | Nat.succ t => timestep_grid params obstacles
      (run_grid params obstacles grid t)

/-- Initial uniform distribution written by initialise (lines 887-909). -/
def init_grid (params : t_param) : soa where
  s0 := fun _ => params.density * 4 / 9
  s1 := fun _ => params.density / 9
  s2 := fun _ => params.density / 9
  s3 := fun _ => params.density / 9
  s4 := fun _ => params.density / 9
  s5 := fun _ => params.density / 36
  s6 := fun _ => params.density / 36
  s7 := fun _ => params.density / 36
  s8 := fun _ => params.density / 36

/-- The average-velocity time series recorded by the driver loop. -/
def main_av_vels (sqrtf : ℚ → ℚ) (params : t_param)
    (obstacles : ℕ → Bool) : List ℚ :=
  (List.range params.maxIters).map (fun tt =>
    timestep_av sqrtf params obstacles
      (run_grid params obstacles (init_grid params) tt))

/-- The buffer grid_ptr points at when the driver loop ends. -/
def main_final_grid (params : t_param) (obstacles : ℕ → Bool) : soa :=
  run_grid params obstacles (init_grid params) params.maxIters

/-- The Reynolds number printed by main (line 217): calc_reynolds applied
to the final buffer; the stored time series is not consulted. -/
def main_reynolds (sqrtf : ℚ → ℚ) (params : t_param)
    (obstacles : ℕ → Bool) : ℚ :=
  calc_reynolds sqrtf params obstacles (main_final_grid params obstacles)

/-- One line of the final-state file (write_values lines 1033-1077). -/
structure stateLine where
  xc : ℕ
  yc : ℕ
  lu_x : ℚ
  lu_y : ℚ
  lu : ℚ
  lpressure : ℚ
  lflag : Bool

/-- The line write_values emits for cell (ii, jj): zero velocity and the
reference pressure at an occupied cell, computed values otherwise; the
obstacle flag field is read at index ii * nx + jj. -/
def write_line (sqrtf : ℚ → ℚ) (params : t_param)
    (obstacles : ℕ → Bool) (grid : soa) (ii jj : ℕ) : stateLine :=
  if obstacles (ii + jj * params.nx) then
    { xc := ii, yc := jj, lu_x := 0, lu_y := 0, lu := 0
      lpressure := params.density * c_sq
      lflag := obstacles (ii * params.nx + jj) }
  else
    let t := readCell params grid ii jj
    { xc := ii, yc := jj, lu_x := u_x t, lu_y := u_y t
      lu := sqrtf (u_x t * u_x t + u_y t * u_y t)
      lpressure := sumSpeeds t * c_sq
      lflag := obstacles (ii * params.nx + jj) }

/-- Diagnostics initialise can abort with on an allocation failure. -/
inductive allocDiag where
  | obstaclesAllocFailed

/-- Allocation and checking sequence of initialise (lines 866-963): each
Option argument stands for the result of one allocation call (none =
NULL): the nine _mm_malloc results of each distribution buffer, the
malloc of the obstacle array, and the malloc of the av_vels array.  The
source tests only the obstacle allocation (line 915); on success the
other pointers, failed or not, flow unchecked into the returned state. -/
def initialise_allocs (gridAllocs tmpAllocs : Fin 9 → Option Unit)
    (obstAlloc avAlloc : Option Unit) :
    Except allocDiag
      ((Fin 9 → Option Unit) × (Fin 9 → Option Unit) × Unit × Option Unit) :=
  match obstAlloc with
  | none => Except.error allocDiag.obstaclesAllocFailed
  | some u => Except.ok (gridAllocs, tmpAllocs, u, avAlloc)

/-- True exactly when the initialise allocation sequence aborted with a
diagnostic. -/
def allocReported
    (r : Except allocDiag
      ((Fin 9 → Option Unit) × (Fin 9 → Option Unit) × Unit × Option Unit)) :
    Bool :=
  match r with
  | Except.error _ => true
  | Except.ok _ => false

/-! Concrete instances used to evaluate the embedding at specific
inputs. -/

/-- Obstacle map with every cell fluid. -/
def obstNone : ℕ → Bool := fun _ => false

/-- Obstacle map with every cell blocked. -/
def obstAll : ℕ → Bool := fun _ => true

/-- A 1 x 1 grid, unit density, no acceleration, omega = 1. -/
def pOne : t_param :=
  { nx := 1, ny := 1, maxIters := 0, reynolds_dim := 1,
    density := 1, accel := 0, omega := 1 }

/-- A 1 x 1 grid for the collision comparison. -/
def pC1 : t_param :=
  { nx := 1, ny := 1, maxIters := 1, reynolds_dim := 1,
    density := 1, accel := 0, omega := 1 }

/-- A 1 x 2 grid, unit density, no acceleration, omega = 1. -/
def pC2 : t_param :=
  { nx := 1, ny := 2, maxIters := 1, reynolds_dim := 1,
    density := 1, accel := 0, omega := 1 }

/-- A 1 x 2 grid with unit density and acceleration 1. -/
def pAcc : t_param :=
  { nx := 1, ny := 2, maxIters := 0, reynolds_dim := 1,
    density := 1, accel := 1, omega := 1 }

/-- A 1 x 2 grid with unit density and acceleration -1. -/
def pNegAcc : t_param :=
  { nx := 1, ny := 2, maxIters := 0, reynolds_dim := 1,
    density := 1, accel := -1, omega := 1 }

/-- Buffer holding 1 in every entry of every field. -/
def gUnit : soa :=
  ⟨fun _ => 1, fun _ => 1, fun _ => 1, fun _ => 1, fun _ => 1,
   fun _ => 1, fun _ => 1, fun _ => 1, fun _ => 1⟩

/-- Buffer holding 1/36 in every entry of every field. -/
def gSmall : soa :=
  ⟨fun _ => 1 / 36, fun _ => 1 / 36, fun _ => 1 / 36, fun _ => 1 / 36,
   fun _ => 1 / 36, fun _ => 1 / 36, fun _ => 1 / 36, fun _ => 1 / 36,
   fun _ => 1 / 36⟩

/-- Buffer with pairwise different constant fields. -/
def gNine : soa :=
  ⟨fun _ => 10, fun _ => 11, fun _ => 12, fun _ => 13, fun _ => 14,
   fun _ => 15, fun _ => 16, fun _ => 17, fun _ => 18⟩

/-! Index decoding: each in-range flat index ii + jj*nx determines its
cell coordinates uniquely. -/

theorem cell_decode_mod {a b nx : ℕ} (ha : a < nx) :
    (a + b * nx) % nx = a := by
  rw [Nat.add_mul_mod_self_right, Nat.mod_eq_of_lt ha]

theorem cell_decode_div {a b nx : ℕ} (ha : a < nx) :
    (a + b * nx) / nx = b := by
  rw [Nat.add_mul_div_right _ _ (Nat.pos_of_ne_zero (by omega)),
    Nat.div_eq_of_lt ha, Nat.zero_add]

theorem cell_decode_lt {a b nx ny : ℕ} (ha : a < nx) (hb : b < ny) :
    a + b * nx < nx * ny := by
  calc a + b * nx < nx + b * nx := by omega
    _ = (b + 1) * nx := by ring
    _ ≤ ny * nx := Nat.mul_le_mul_right nx hb
    _ = nx * ny := Nat.mul_comm ny nx

/-! Periodic wrap: the neighbour index maps are mutually inverse. -/

theorem x_e_lt {nx : ℕ} (h : 0 < nx) (ii : ℕ) : x_e nx ii < nx :=
  Nat.mod_lt _ h

theorem x_w_lt {nx ii : ℕ} (h : ii < nx) : x_w nx ii < nx := by
  unfold x_w; split <;> omega

theorem y_n_lt {ny : ℕ} (h : 0 < ny) (jj : ℕ) : y_n ny jj < ny :=
  Nat.mod_lt _ h

theorem y_s_lt {ny jj : ℕ} (h : jj < ny) : y_s ny jj < ny := by
  unfold y_s; split <;> omega

theorem x_w_x_e {nx ii : ℕ} (h : ii < nx) : x_w nx (x_e nx ii) = ii := by
  unfold x_e x_w
  by_cases h1 : ii + 1 = nx
  · rw [h1, Nat.mod_self, if_pos rfl]
    omega
  · rw [Nat.mod_eq_of_lt (by omega), if_neg (Nat.succ_ne_zero ii)]
    omega

theorem x_e_x_w {nx ii : ℕ} (h : ii < nx) : x_e nx (x_w nx ii) = ii := by
  unfold x_e x_w
  by_cases h0 : ii = 0
  · subst h0
    rw [if_pos rfl]
    have hx : 0 + nx - 1 + 1 = nx := by omega
    rw [hx, Nat.mod_self]
  · rw [if_neg h0]
    have hx : ii - 1 + 1 = ii := by omega
    rw [hx, Nat.mod_eq_of_lt h]

theorem y_s_y_n {ny jj : ℕ} (h : jj < ny) : y_s ny (y_n ny jj) = jj := by
  unfold y_n y_s
  by_cases h1 : jj + 1 = ny
  · rw [h1, Nat.mod_self, if_pos rfl]
    omega
  · rw [Nat.mod_eq_of_lt (by omega), if_neg (Nat.succ_ne_zero jj)]
    omega

theorem y_n_y_s {ny jj : ℕ} (h : jj < ny) : y_n ny (y_s ny jj) = jj := by
  unfold y_n y_s
  by_cases h0 : jj = 0
  · subst h0
    rw [if_pos rfl]
    have hy : 0 + ny - 1 + 1 = ny := by omega
    rw [hy, Nat.mod_self]
  · rw [if_neg h0]
    have hy : jj - 1 + 1 = jj := by omega
    rw [hy, Nat.mod_eq_of_lt h]

/-! Characterization of accelerate_flow: the column loop writes exactly
the guarded cells of row ny - 2, each exactly once. -/

theorem accelGuard_iff (params : t_param) (obstacles : ℕ → Bool)
    (grid : soa) (ii : ℕ) :
    accelGuard params obstacles grid ii = true ↔
      (obstacles (ii + (params.ny - 2) * params.nx) = false ∧
       grid.s3 (ii + (params.ny - 2) * params.nx) - accelW1 params > 0 ∧
       grid.s6 (ii + (params.ny - 2) * params.nx) - accelW2 params > 0 ∧
       grid.s7 (ii + (params.ny - 2) * params.nx) - accelW2 params > 0) := by
  simp [accelGuard, Bool.and_eq_true, decide_eq_true_eq,
    Bool.not_eq_true', and_assoc]

theorem accelCell_s0 (params : t_param) (obstacles : ℕ → Bool)
    (g : soa) (ii : ℕ) : (accelCell params obstacles g ii).s0 = g.s0 := by
  by_cases h : accelGuard params obstacles g ii <;> simp [accelCell, h]

theorem accelCell_s2 (params : t_param) (obstacles : ℕ → Bool)
    (g : soa) (ii : ℕ) : (accelCell params obstacles g ii).s2 = g.s2 := by
  by_cases h : accelGuard params obstacles g ii <;> simp [accelCell, h]

theorem accelCell_s4 (params : t_param) (obstacles : ℕ → Bool)
    (g : soa) (ii : ℕ) : (accelCell params obstacles g ii).s4 = g.s4 := by
  by_cases h : accelGuard params obstacles g ii <;> simp [accelCell, h]

theorem accelCell_ne (params : t_param) (obstacles : ℕ → Bool)
    (g : soa) (ii m : ℕ) (hm : m ≠ ii + (params.ny - 2) * params.nx) :
    (accelCell params obstacles g ii).s1 m = g.s1 m ∧
    (accelCell params obstacles g ii).s3 m = g.s3 m ∧
    (accelCell params obstacles g ii).s5 m = g.s5 m ∧
    (accelCell params obstacles g ii).s6 m = g.s6 m ∧
    (accelCell params obstacles g ii).s7 m = g.s7 m ∧
    (accelCell params obstacles g ii).s8 m = g.s8 m := by
  by_cases h : accelGuard params obstacles g ii <;>
    refine ⟨?_, ?_, ?_, ?_, ?_, ?_⟩ <;>
    simp [accelCell, h, Function.update_noteq hm]

theorem accelCell_at_true (params : t_param) (obstacles : ℕ → Bool)
    (g : soa) (ii : ℕ) (h : accelGuard params obstacles g ii = true) :
    (accelCell params obstacles g ii).s1 (ii + (params.ny - 2) * params.nx)
      = g.s1 (ii + (params.ny - 2) * params.nx) + accelW1 params ∧
    (accelCell params obstacles g ii).s5 (ii + (params.ny - 2) * params.nx)
      = g.s5 (ii + (params.ny - 2) * params.nx) + accelW2 params ∧
    (accelCell params obstacles g ii).s8 (ii + (params.ny - 2) * params.nx)
      = g.s8 (ii + (params.ny - 2) * params.nx) + accelW2 params ∧
    (accelCell params obstacles g ii).s3 (ii + (params.ny - 2) * params.nx)
      = g.s3 (ii + (params.ny - 2) * params.nx) - accelW1 params ∧
    (accelCell params obstacles g ii).s6 (ii + (params.ny - 2) * params.nx)
      = g.s6 (ii + (params.ny - 2) * params.nx) - accelW2 params ∧
    (accelCell params obstacles g ii).s7 (ii + (params.ny - 2) * params.nx)
      = g.s7 (ii + (params.ny - 2) * params.nx) - accelW2 params := by
  refine ⟨?_, ?_, ?_, ?_, ?_, ?_⟩ <;>
    simp [accelCell, h, Function.update_same]

theorem accelCell_at_false (params : t_param) (obstacles : ℕ → Bool)
    (g : soa) (ii : ℕ) (h : accelGuard params obstacles g ii = false) :
    (accelCell params obstacles g ii).s1 (ii + (params.ny - 2) * params.nx)
      = g.s1 (ii + (params.ny - 2) * params.nx) ∧
    (accelCell params obstacles g ii).s5 (ii + (params.ny - 2) * params.nx)
      = g.s5 (ii + (params.ny - 2) * params.nx) ∧
    (accelCell params obstacles g ii).s8 (ii + (params.ny - 2) * params.nx)
      = g.s8 (ii + (params.ny - 2) * params.nx) ∧
    (accelCell params obstacles g ii).s3 (ii + (params.ny - 2) * params.nx)
      = g.s3 (ii + (params.ny - 2) * params.nx) ∧
    (accelCell params obstacles g ii).s6 (ii + (params.ny - 2) * params.nx)
      = g.s6 (ii + (params.ny - 2) * params.nx) ∧
    (accelCell params obstacles g ii).s7 (ii + (params.ny - 2) * params.nx)
      = g.s7 (ii + (params.ny - 2) * params.nx) := by
  refine ⟨?_, ?_, ?_, ?_, ?_, ?_⟩ <;> simp [accelCell, h]

theorem accelCell_congr_at (params : t_param) (obstacles : ℕ → Bool)
    (F g : soa) (k : ℕ)
    (h1 : F.s1 (k + (params.ny - 2) * params.nx)
        = g.s1 (k + (params.ny - 2) * params.nx))
    (h3 : F.s3 (k + (params.ny - 2) * params.nx)
        = g.s3 (k + (params.ny - 2) * params.nx))
    (h5 : F.s5 (k + (params.ny - 2) * params.nx)
        = g.s5 (k + (params.ny - 2) * params.nx))
    (h6 : F.s6 (k + (params.ny - 2) * params.nx)
        = g.s6 (k + (params.ny - 2) * params.nx))
    (h7 : F.s7 (k + (params.ny - 2) * params.nx)
        = g.s7 (k + (params.ny - 2) * params.nx))
    (h8 : F.s8 (k + (params.ny - 2) * params.nx)
        = g.s8 (k + (params.ny - 2) * params.nx)) :
    (accelCell params obstacles F k).s1 (k + (params.ny - 2) * params.nx)
      = (accelCell params obstacles g k).s1 (k + (params.ny - 2) * params.nx) ∧
    (accelCell params obstacles F k).s3 (k + (params.ny - 2) * params.nx)
      = (accelCell params obstacles g k).s3 (k + (params.ny - 2) * params.nx) ∧
    (accelCell params obstacles F k).s5 (k + (params.ny - 2) * params.nx)
      = (accelCell params obstacles g k).s5 (k + (params.ny - 2) * params.nx) ∧
    (accelCell params obstacles F k).s6 (k + (params.ny - 2) * params.nx)
      = (accelCell params obstacles g k).s6 (k + (params.ny - 2) * params.nx) ∧
    (accelCell params obstacles F k).s7 (k + (params.ny - 2) * params.nx)
      = (accelCell params obstacles g k).s7 (k + (params.ny - 2) * params.nx) ∧
    (accelCell params obstacles F k).s8 (k + (params.ny - 2) * params.nx)
      = (accelCell params obstacles g k).s8 (k + (params.ny - 2) * params.nx) := by
  have hg : accelGuard params obstacles F k = accelGuard params obstacles g k := by
    simp only [accelGuard, h3, h6, h7]
  by_cases h : accelGuard params obstacles g k
  · rcases accelCell_at_true params obstacles F k (hg.trans h) with
      ⟨a1, a5, a8, a3, a6, a7⟩
    rcases accelCell_at_true params obstacles g k h with
      ⟨b1, b5, b8, b3, b6, b7⟩
    exact ⟨by rw [a1, b1, h1], by rw [a3, b3, h3], by rw [a5, b5, h5],
      by rw [a6, b6, h6], by rw [a7, b7, h7], by rw [a8, b8, h8]⟩
  · have hgf : accelGuard params obstacles g k = false := by
      simpa using h
    have hF : accelGuard params obstacles F k = false := by
      rw [hg]; exact hgf
    rcases accelCell_at_false params obstacles F k hF with
      ⟨a1, a5, a8, a3, a6, a7⟩
    rcases accelCell_at_false params obstacles g k hgf with
      ⟨b1, b5, b8, b3, b6, b7⟩
    exact ⟨by rw [a1, b1, h1], by rw [a3, b3, h3], by rw [a5, b5, h5],
      by rw [a6, b6, h6], by rw [a7, b7, h7], by rw [a8, b8, h8]⟩

theorem accel_foldl_s024 (params : t_param) (obstacles : ℕ → Bool)
    (l : List ℕ) (g : soa) :
    (l.foldl (accelCell params obstacles) g).s0 = g.s0 ∧
    (l.foldl (accelCell params obstacles) g).s2 = g.s2 ∧
    (l.foldl (accelCell params obstacles) g).s4 = g.s4 := by
  induction l generalizing g with
  | nil => exact ⟨rfl, rfl, rfl⟩
  | cons x xs ih =>
    rcases ih (accelCell params obstacles g x) with ⟨h0, h2, h4⟩
    exact ⟨by rw [List.foldl_cons, h0, accelCell_s0],
      by rw [List.foldl_cons, h2, accelCell_s2],
      by rw [List.foldl_cons, h4, accelCell_s4]⟩

theorem accel_foldl_ne (params : t_param) (obstacles : ℕ → Bool)
    (l : List ℕ) (g : soa) (m : ℕ)
    (hm : ∀ ii ∈ l, m ≠ ii + (params.ny - 2) * params.nx) :
    (l.foldl (accelCell params obstacles) g).s1 m = g.s1 m ∧
    (l.foldl (accelCell params obstacles) g).s3 m = g.s3 m ∧
    (l.foldl (accelCell params obstacles) g).s5 m = g.s5 m ∧
    (l.foldl (accelCell params obstacles) g).s6 m = g.s6 m ∧
    (l.foldl (accelCell params obstacles) g).s7 m = g.s7 m ∧
    (l.foldl (accelCell params obstacles) g).s8 m = g.s8 m := by
  induction l generalizing g with
  | nil => exact ⟨rfl, rfl, rfl, rfl, rfl, rfl⟩
  | cons x xs ih =>
    have hx : m ≠ x + (params.ny - 2) * params.nx :=
      hm x (List.mem_cons_self x xs)
    have hxs : ∀ ii ∈ xs, m ≠ ii + (params.ny - 2) * params.nx :=
      fun ii hii => hm ii (List.mem_cons_of_mem x hii)
    rcases ih (accelCell params obstacles g x) hxs with
      ⟨h1, h3, h5, h6, h7, h8⟩
    rcases accelCell_ne params obstacles g x m hx with
      ⟨k1, k3, k5, k6, k7, k8⟩
    exact ⟨by rw [List.foldl_cons, h1, k1], by rw [List.foldl_cons, h3, k3],
      by rw [List.foldl_cons, h5, k5], by rw [List.foldl_cons, h6, k6],
      by rw [List.foldl_cons, h7, k7], by rw [List.foldl_cons, h8, k8]⟩

theorem accel_range_at (params : t_param) (obstacles : ℕ → Bool)
    (g : soa) (k ii : ℕ) (hii : ii < k) :
    ((List.range k).foldl (accelCell params obstacles) g).s1
        (ii + (params.ny - 2) * params.nx)
      = (accelCell params obstacles g ii).s1
        (ii + (params.ny - 2) * params.nx) ∧
    ((List.range k).foldl (accelCell params obstacles) g).s3
        (ii + (params.ny - 2) * params.nx)
      = (accelCell params obstacles g ii).s3
        (ii + (params.ny - 2) * params.nx) ∧
    ((List.range k).foldl (accelCell params obstacles) g).s5
        (ii + (params.ny - 2) * params.nx)
      = (accelCell params obstacles g ii).s5
        (ii + (params.ny - 2) * params.nx) ∧
    ((List.range k).foldl (accelCell params obstacles) g).s6
        (ii + (params.ny - 2) * params.nx)
      = (accelCell params obstacles g ii).s6
        (ii + (params.ny - 2) * params.nx) ∧
    ((List.range k).foldl (accelCell params obstacles) g).s7
        (ii + (params.ny - 2) * params.nx)
      = (accelCell params obstacles g ii).s7
        (ii + (params.ny - 2) * params.nx) ∧
    ((List.range k).foldl (accelCell params obstacles) g).s8
        (ii + (params.ny - 2) * params.nx)
      = (accelCell params obstacles g ii).s8
        (ii + (params.ny - 2) * params.nx) := by
  induction k with
  | zero => omega
  | succ k ih =>
    have hfold : (List.range (k + 1)).foldl (accelCell params obstacles) g
        = accelCell params obstacles
          ((List.range k).foldl (accelCell params obstacles) g) k := by
      rw [List.range_succ, List.foldl_append, List.foldl_cons, List.foldl_nil]
    by_cases hik : ii < k
    · have hne : ii + (params.ny - 2) * params.nx
          ≠ k + (params.ny - 2) * params.nx :=
        fun h => Nat.ne_of_lt hik (Nat.add_right_cancel h)
      rcases accelCell_ne params obstacles
        ((List.range k).foldl (accelCell params obstacles) g) k
        (ii + (params.ny - 2) * params.nx) hne with ⟨k1, k3, k5, k6, k7, k8⟩
      rcases ih hik with ⟨h1, h3, h5, h6, h7, h8⟩
      exact ⟨by rw [hfold, k1, h1], by rw [hfold, k3, h3],
        by rw [hfold, k5, h5], by rw [hfold, k6, h6],
        by rw [hfold, k7, h7], by rw [hfold, k8, h8]⟩
    · have hik2 : ii = k := by omega
      subst hik2
      have hunt : ∀ i ∈ List.range ii,
          ii + (params.ny - 2) * params.nx
            ≠ i + (params.ny - 2) * params.nx := by
        intro i hi h
        exact Nat.ne_of_gt (List.mem_range.mp hi) (Nat.add_right_cancel h)
      rcases accel_foldl_ne params obstacles (List.range ii) g
        (ii + (params.ny - 2) * params.nx) hunt with ⟨f1, f3, f5, f6, f7, f8⟩
      rcases accelCell_congr_at params obstacles
        ((List.range ii).foldl (accelCell params obstacles) g) g ii
        f1 f3 f5 f6 f7 f8 with ⟨c1, c3, c5, c6, c7, c8⟩
      exact ⟨by rw [hfold, c1], by rw [hfold, c3], by rw [hfold, c5],
        by rw [hfold, c6], by rw [hfold, c7], by rw [hfold, c8]⟩

theorem accelerate_flow_s024 (params : t_param) (obstacles : ℕ → Bool)
    (g : soa) :
    (accelerate_flow params obstacles g).s0 = g.s0 ∧
    (accelerate_flow params obstacles g).s2 = g.s2 ∧
    (accelerate_flow params obstacles g).s4 = g.s4 :=
  accel_foldl_s024 params obstacles (List.range params.nx) g

theorem accelerate_flow_ne (params : t_param) (obstacles : ℕ → Bool)
    (g : soa) (m : ℕ)
    (hm : ∀ ii, ii < params.nx → m ≠ ii + (params.ny - 2) * params.nx) :
    (accelerate_flow params obstacles g).s1 m = g.s1 m ∧
    (accelerate_flow params obstacles g).s3 m = g.s3 m ∧
    (accelerate_flow params obstacles g).s5 m = g.s5 m ∧
    (accelerate_flow params obstacles g).s6 m = g.s6 m ∧
    (accelerate_flow params obstacles g).s7 m = g.s7 m ∧
    (accelerate_flow params obstacles g).s8 m = g.s8 m :=
  accel_foldl_ne params obstacles (List.range params.nx) g m
    (fun ii hii => hm ii (List.mem_range.mp hii))

/-! Evaluation of the fused kernel's scratch buffer at an in-range cell. -/

theorem fusion_grid_at_s0 (params : t_param) (obstacles : ℕ → Bool)
    (grid : soa) {a b : ℕ} (ha : a < params.nx) (hb : b < params.ny) :
    (fusion_grid params obstacles grid).s0 (a + b * params.nx)
      = (fusionCell params obstacles grid a b).v0 := by
  simp only [fusion_grid]
  rw [if_pos (cell_decode_lt ha hb), cell_decode_mod ha, cell_decode_div ha]

theorem fusion_grid_at_s1 (params : t_param) (obstacles : ℕ → Bool)
    (grid : soa) {a b : ℕ} (ha : a < params.nx) (hb : b < params.ny) :
    (fusion_grid params obstacles grid).s1 (a + b * params.nx)
      = (fusionCell params obstacles grid a b).v1 := by
  simp only [fusion_grid]
  rw [if_pos (cell_decode_lt ha hb), cell_decode_mod ha, cell_decode_div ha]

theorem fusion_grid_at_s2 (params : t_param) (obstacles : ℕ → Bool)
    (grid : soa) {a b : ℕ} (ha : a < params.nx) (hb : b < params.ny) :
    (fusion_grid params obstacles grid).s2 (a + b * params.nx)
      = (fusionCell params obstacles grid a b).v2 := by
  simp only [fusion_grid]
  rw [if_pos (cell_decode_lt ha hb), cell_decode_mod ha, cell_decode_div ha]

theorem fusion_grid_at_s3 (params : t_param) (obstacles : ℕ → Bool)
    (grid : soa) {a b : ℕ} (ha : a < params.nx) (hb : b < params.ny) :
    (fusion_grid params obstacles grid).s3 (a + b * params.nx)
      = (fusionCell params obstacles grid a b).v3 := by
  simp only [fusion_grid]
  rw [if_pos (cell_decode_lt ha hb), cell_decode_mod ha, cell_decode_div ha]

theorem fusion_grid_at_s4 (params : t_param) (obstacles : ℕ → Bool)
    (grid : soa) {a b : ℕ} (ha : a < params.nx) (hb : b < params.ny) :
    (fusion_grid params obstacles grid).s4 (a + b * params.nx)
      = (fusionCell params obstacles grid a b).v4 := by
  simp only [fusion_grid]
  rw [if_pos (cell_decode_lt ha hb), cell_decode_mod ha, cell_decode_div ha]

theorem fusion_grid_at_s5 (params : t_param) (obstacles : ℕ → Bool)
    (grid : soa) {a b : ℕ} (ha : a < params.nx) (hb : b < params.ny) :
    (fusion_grid params obstacles grid).s5 (a + b * params.nx)
      = (fusionCell params obstacles grid a b).v5 := by
  simp only [fusion_grid]
  rw [if_pos (cell_decode_lt ha hb), cell_decode_mod ha, cell_decode_div ha]

theorem fusion_grid_at_s6 (params : t_param) (obstacles : ℕ → Bool)
    (grid : soa) {a b : ℕ} (ha : a < params.nx) (hb : b < params.ny) :
    (fusion_grid params obstacles grid).s6 (a + b * params.nx)
      = (fusionCell params obstacles grid a b).v6 := by
  simp only [fusion_grid]
  rw [if_pos (cell_decode_lt ha hb), cell_decode_mod ha, cell_decode_div ha]

theorem fusion_grid_at_s7 (params : t_param) (obstacles : ℕ → Bool)
    (grid : soa) {a b : ℕ} (ha : a < params.nx) (hb : b < params.ny) :
    (fusion_grid params obstacles grid).s7 (a + b * params.nx)
      = (fusionCell params obstacles grid a b).v7 := by
  simp only [fusion_grid]
  rw [if_pos (cell_decode_lt ha hb), cell_decode_mod ha, cell_decode_div ha]

theorem fusion_grid_at_s8 (params : t_param) (obstacles : ℕ → Bool)
    (grid : soa) {a b : ℕ} (ha : a < params.nx) (hb : b < params.ny) :
    (fusion_grid params obstacles grid).s8 (a + b * params.nx)
      = (fusionCell params obstacles grid a b).v8 := by
  simp only [fusion_grid]
  rw [if_pos (cell_decode_lt ha hb), cell_decode_mod ha, cell_decode_div ha]

theorem fusionCell_obstacle (params : t_param) (obstacles : ℕ → Bool)
    (grid : soa) (a b : ℕ)
    (hobs : obstacles (b * params.nx + a) = true) :
    fusionCell params obstacles grid a b
      = rebound (stream params grid a b) := by
  simp [fusionCell, hobs]

/-! Reads of the scratch buffer at an obstacle cell, expressed as reads
of the source buffer through the composed stream-and-mirror map. -/

theorem fusion_obs_s0 (params : t_param) (obstacles : ℕ → Bool)
    (grid : soa) {a b : ℕ} (ha : a < params.nx) (hb : b < params.ny)
    (hobs : obstacles (b * params.nx + a) = true) :
    (fusion_grid params obstacles grid).s0 (a + b * params.nx)
      = grid.s0 (a + b * params.nx) := by
  rw [fusion_grid_at_s0 params obstacles grid ha hb,
    fusionCell_obstacle params obstacles grid a b hobs]
  rfl

theorem fusion_obs_s1 (params : t_param) (obstacles : ℕ → Bool)
    (grid : soa) {a b : ℕ} (ha : a < params.nx) (hb : b < params.ny)
    (hobs : obstacles (b * params.nx + a) = true) :
    (fusion_grid params obstacles grid).s1 (a + b * params.nx)
      = grid.s3 (x_e params.nx a + b * params.nx) := by
  rw [fusion_grid_at_s1 params obstacles grid ha hb,
    fusionCell_obstacle params obstacles grid a b hobs]
  rfl

theorem fusion_obs_s2 (params : t_param) (obstacles : ℕ → Bool)
    (grid : soa) {a b : ℕ} (ha : a < params.nx) (hb : b < params.ny)
    (hobs : obstacles (b * params.nx + a) = true) :
    (fusion_grid params obstacles grid).s2 (a + b * params.nx)
      = grid.s4 (a + y_n params.ny b * params.nx) := by
  rw [fusion_grid_at_s2 params obstacles grid ha hb,
    fusionCell_obstacle params obstacles grid a b hobs]
  rfl

theorem fusion_obs_s3 (params : t_param) (obstacles : ℕ → Bool)
    (grid : soa) {a b : ℕ} (ha : a < params.nx) (hb : b < params.ny)
    (hobs : obstacles (b * params.nx + a) = true) :
    (fusion_grid params obstacles grid).s3 (a + b * params.nx)
      = grid.s1 (x_w params.nx a + b * params.nx) := by
  rw [fusion_grid_at_s3 params obstacles grid ha hb,
    fusionCell_obstacle params obstacles grid a b hobs]
  rfl

theorem fusion_obs_s4 (params : t_param) (obstacles : ℕ → Bool)
    (grid : soa) {a b : ℕ} (ha : a < params.nx) (hb : b < params.ny)
    (hobs : obstacles (b * params.nx + a) = true) :
    (fusion_grid params obstacles grid).s4 (a + b * params.nx)
      = grid.s2 (a + y_s params.ny b * params.nx) := by
  rw [fusion_grid_at_s4 params obstacles grid ha hb,
    fusionCell_obstacle params obstacles grid a b hobs]
  rfl

theorem fusion_obs_s5 (params : t_param) (obstacles : ℕ → Bool)
    (grid : soa) {a b : ℕ} (ha : a < params.nx) (hb : b < params.ny)
    (hobs : obstacles (b * params.nx + a) = true) :
    (fusion_grid params obstacles grid).s5 (a + b * params.nx)
      = grid.s7 (x_e params.nx a + y_n params.ny b * params.nx) := by
  rw [fusion_grid_at_s5 params obstacles grid ha hb,
    fusionCell_obstacle params obstacles grid a b hobs]
  rfl

theorem fusion_obs_s6 (params : t_param) (obstacles : ℕ → Bool)
    (grid : soa) {a b : ℕ} (ha : a < params.nx) (hb : b < params.ny)
    (hobs : obstacles (b * params.nx + a) = true) :
    (fusion_grid params obstacles grid).s6 (a + b * params.nx)
      = grid.s8 (x_w params.nx a + y_n params.ny b * params.nx) := by
  rw [fusion_grid_at_s6 params obstacles grid ha hb,
    fusionCell_obstacle params obstacles grid a b hobs]
  rfl

theorem fusion_obs_s7 (params : t_param) (obstacles : ℕ → Bool)
    (grid : soa) {a b : ℕ} (ha : a < params.nx) (hb : b < params.ny)
    (hobs : obstacles (b * params.nx + a) = true) :
    (fusion_grid params obstacles grid).s7 (a + b * params.nx)
      = grid.s5 (x_w params.nx a + y_s params.ny b * params.nx) := by
  rw [fusion_grid_at_s7 params obstacles grid ha hb,
    fusionCell_obstacle params obstacles grid a b hobs]
  rfl

theorem fusion_obs_s8 (params : t_param) (obstacles : ℕ → Bool)
    (grid : soa) {a b : ℕ} (ha : a < params.nx) (hb : b < params.ny)
    (hobs : obstacles (b * params.nx + a) = true) :
    (fusion_grid params obstacles grid).s8 (a + b * params.nx)
      = grid.s6 (x_e params.nx a + y_s params.ny b * params.nx) := by
  rw [fusion_grid_at_s8 params obstacles grid ha hb,
    fusionCell_obstacle params obstacles grid a b hobs]
  rfl

/-! Claim theorems. -/

/-- Claim C1: the claim states that the fused kernel writes the BGK
relaxation of the streamed values toward the computed equilibrium.  The
reachable code path instead relaxes toward the constant-ones d_equ of
lines 663-673, with the full equilibrium computation commented out: at
the uniform unit-density state with omega = 1 and no obstacles, the
kernel writes 1 to the rest component while the BGK relaxation of the
source collision function (the claimed value) is 4/9. -/
theorem claim_C1 :
    (fusionCell pC1 obstNone (init_grid pC1) 0 0).v0 = 1 ∧
    (collision_cell pC1.omega (stream pC1 (init_grid pC1) 0 0)).v0 = 4 / 9 ∧
    (fusionCell pC1 obstNone (init_grid pC1) 0 0).v0
      ≠ (collision_cell pC1.omega (stream pC1 (init_grid pC1) 0 0)).v0 := by
  refine ⟨?_, ?_, ?_⟩ <;>
    norm_num [fusionCell, collision_cell, stream, relax, rebound, d_equ,
      d_equ_fusion, sumSpeeds, u_x, u_y, c_sq, w0, w1, w2, init_grid,
      obstNone, pC1, x_e, x_w, y_n, y_s]

/-- Claim C2: the claim states that the uniform equilibrium is a fixed
point of the timestep with no obstacles and zero acceleration.  Because
the reachable fused-kernel path relaxes toward the constant-ones d_equ,
one timestep on the uniform unit-density 1 x 2 grid with omega = 1
changes the rest component from 4/9 to 1. -/
theorem claim_C2 :
    (timestep_grid pC2 obstNone (init_grid pC2)).s0 0 = 1 ∧
    (init_grid pC2).s0 0 = 4 / 9 ∧
    (timestep_grid pC2 obstNone (init_grid pC2)).s0 0
      ≠ (init_grid pC2).s0 0 := by
  refine ⟨?_, ?_, ?_⟩ <;>
    norm_num [timestep_grid, fusion_grid, fusionCell, stream, relax,
      rebound, d_equ_fusion, accelerate_flow, accelCell, accelGuard,
      accelW1, accelW2, init_grid, obstNone, pC2, x_e, x_w, y_n, y_s,
      List.range_succ, Function.update]

/-- Claim C3: at an obstacle cell the fused kernel writes exactly the
bounce-back mirror of the streamed values (g0=t0, g1=t3, g2=t4, g3=t1,
g4=t2, g5=t7, g6=t8, g7=t5, g8=t6), the BGK path is not applied, and the
cell contributes nothing to the velocity sum or the fluid-cell count. -/
theorem claim_C3 (sqrtf : ℚ → ℚ) (params : t_param)
    (obstacles : ℕ → Bool) (grid : soa) (ii jj : ℕ)
    (hii : ii < params.nx) (hjj : jj < params.ny)
    (hobs : obstacles (jj * params.nx + ii) = true) :
    (fusion_grid params obstacles grid).s0 (ii + jj * params.nx)
      = (stream params grid ii jj).v0 ∧
    (fusion_grid params obstacles grid).s1 (ii + jj * params.nx)
      = (stream params grid ii jj).v3 ∧
    (fusion_grid params obstacles grid).s2 (ii + jj * params.nx)
      = (stream params grid ii jj).v4 ∧
    (fusion_grid params obstacles grid).s3 (ii + jj * params.nx)
      = (stream params grid ii jj).v1 ∧
    (fusion_grid params obstacles grid).s4 (ii + jj * params.nx)
      = (stream params grid ii jj).v2 ∧
    (fusion_grid params obstacles grid).s5 (ii + jj * params.nx)
      = (stream params grid ii jj).v7 ∧
    (fusion_grid params obstacles grid).s6 (ii + jj * params.nx)
      = (stream params grid ii jj).v8 ∧
    (fusion_grid params obstacles grid).s7 (ii + jj * params.nx)
      = (stream params grid ii jj).v5 ∧
    (fusion_grid params obstacles grid).s8 (ii + jj * params.nx)
      = (stream params grid ii jj).v6 ∧
    fusionCell params obstacles grid ii jj
      = rebound (stream params grid ii jj) ∧
    cellCount params obstacles ii jj = 0 ∧
    cellU sqrtf params obstacles grid ii jj = 0 := by
  refine ⟨?_, ?_, ?_, ?_, ?_, ?_, ?_, ?_, ?_,
    fusionCell_obstacle params obstacles grid ii jj hobs,
    by simp [cellCount, hobs], by simp [cellU, hobs]⟩
  · rw [fusion_grid_at_s0 params obstacles grid hii hjj,
      fusionCell_obstacle params obstacles grid ii jj hobs]
    rfl
  · rw [fusion_grid_at_s1 params obstacles grid hii hjj,
      fusionCell_obstacle params obstacles grid ii jj hobs]
    rfl
  · rw [fusion_grid_at_s2 params obstacles grid hii hjj,
      fusionCell_obstacle params obstacles grid ii jj hobs]
    rfl
  · rw [fusion_grid_at_s3 params obstacles grid hii hjj,
      fusionCell_obstacle params obstacles grid ii jj hobs]
    rfl
  · rw [fusion_grid_at_s4 params obstacles grid hii hjj,
      fusionCell_obstacle params obstacles grid ii jj hobs]
    rfl
  · rw [fusion_grid_at_s5 params obstacles grid hii hjj,
      fusionCell_obstacle params obstacles grid ii jj hobs]
    rfl
  · rw [fusion_grid_at_s6 params obstacles grid hii hjj,
      fusionCell_obstacle params obstacles grid ii jj hobs]
    rfl
  · rw [fusion_grid_at_s7 params obstacles grid hii hjj,
      fusionCell_obstacle params obstacles grid ii jj hobs]
    rfl
  · rw [fusion_grid_at_s8 params obstacles grid hii hjj,
      fusionCell_obstacle params obstacles grid ii jj hobs]
    rfl

/-- Witness for claim C3 at a concrete all-obstacle 1 x 1 input. -/
theorem claim_C3_witness :
    obstAll (0 * pOne.nx + 0) = true ∧
    (fusion_grid pOne obstAll gNine).s1 (0 + 0 * pOne.nx)
      = (stream pOne gNine 0 0).v3 ∧
    cellCount pOne obstAll 0 0 = 0 :=
  ⟨rfl,
    (claim_C3 id pOne obstAll gNine 0 0 (by decide) (by decide) rfl).2.1,
    (claim_C3 id pOne obstAll gNine 0 0 (by decide) (by decide)
      rfl).2.2.2.2.2.2.2.2.2.2.1⟩

/-- Claim C4: accelerate_flow modifies only cells of row ny - 2; on that
row it applies f1 += w1, f5 += w2, f8 += w2, f3 -= w1, f6 -= w2, f7 -= w2
exactly when the cell is fluid and the three decremented components stay
positive; every other cell of the grid is unchanged. -/
theorem claim_C4 (params : t_param) (obstacles : ℕ → Bool) (grid : soa) :
    (∀ n, (accelerate_flow params obstacles grid).s0 n = grid.s0 n ∧
      (accelerate_flow params obstacles grid).s2 n = grid.s2 n ∧
      (accelerate_flow params obstacles grid).s4 n = grid.s4 n) ∧
    (∀ n, (∀ ii, ii < params.nx → n ≠ ii + (params.ny - 2) * params.nx) →
      (accelerate_flow params obstacles grid).s1 n = grid.s1 n ∧
      (accelerate_flow params obstacles grid).s3 n = grid.s3 n ∧
      (accelerate_flow params obstacles grid).s5 n = grid.s5 n ∧
      (accelerate_flow params obstacles grid).s6 n = grid.s6 n ∧
      (accelerate_flow params obstacles grid).s7 n = grid.s7 n ∧
      (accelerate_flow params obstacles grid).s8 n = grid.s8 n) ∧
    (∀ ii, ii < params.nx →
      ((obstacles (ii + (params.ny - 2) * params.nx) = false ∧
        grid.s3 (ii + (params.ny - 2) * params.nx) - accelW1 params > 0 ∧
        grid.s6 (ii + (params.ny - 2) * params.nx) - accelW2 params > 0 ∧
        grid.s7 (ii + (params.ny - 2) * params.nx) - accelW2 params > 0) →
        (accelerate_flow params obstacles grid).s1
            (ii + (params.ny - 2) * params.nx)
          = grid.s1 (ii + (params.ny - 2) * params.nx) + accelW1 params ∧
        (accelerate_flow params obstacles grid).s5
            (ii + (params.ny - 2) * params.nx)
          = grid.s5 (ii + (params.ny - 2) * params.nx) + accelW2 params ∧
        (accelerate_flow params obstacles grid).s8
            (ii + (params.ny - 2) * params.nx)
          = grid.s8 (ii + (params.ny - 2) * params.nx) + accelW2 params ∧
        (accelerate_flow params obstacles grid).s3
            (ii + (params.ny - 2) * params.nx)
          = grid.s3 (ii + (params.ny - 2) * params.nx) - accelW1 params ∧
        (accelerate_flow params obstacles grid).s6
            (ii + (params.ny - 2) * params.nx)
          = grid.s6 (ii + (params.ny - 2) * params.nx) - accelW2 params ∧
        (accelerate_flow params obstacles grid).s7
            (ii + (params.ny - 2) * params.nx)
          = grid.s7 (ii + (params.ny - 2) * params.nx) - accelW2 params) ∧
      (¬(obstacles (ii + (params.ny - 2) * params.nx) = false ∧
        grid.s3 (ii + (params.ny - 2) * params.nx) - accelW1 params > 0 ∧
        grid.s6 (ii + (params.ny - 2) * params.nx) - accelW2 params > 0 ∧
        grid.s7 (ii + (params.ny - 2) * params.nx) - accelW2 params > 0) →
        (accelerate_flow params obstacles grid).s1
            (ii + (params.ny - 2) * params.nx)
          = grid.s1 (ii + (params.ny - 2) * params.nx) ∧
        (accelerate_flow params obstacles grid).s3
            (ii + (params.ny - 2) * params.nx)
          = grid.s3 (ii + (params.ny - 2) * params.nx) ∧
        (accelerate_flow params obstacles grid).s5
            (ii + (params.ny - 2) * params.nx)
          = grid.s5 (ii + (params.ny - 2) * params.nx) ∧
        (accelerate_flow params obstacles grid).s6
            (ii + (params.ny - 2) * params.nx)
          = grid.s6 (ii + (params.ny - 2) * params.nx) ∧
        (accelerate_flow params obstacles grid).s7
            (ii + (params.ny - 2) * params.nx)
          = grid.s7 (ii + (params.ny - 2) * params.nx) ∧
        (accelerate_flow params obstacles grid).s8
            (ii + (params.ny - 2) * params.nx)
          = grid.s8 (ii + (params.ny - 2) * params.nx))) := by
  refine ⟨?_, ?_, ?_⟩
  · intro n
    rcases accelerate_flow_s024 params obstacles grid with ⟨h0, h2, h4⟩
    exact ⟨congrFun h0 n, congrFun h2 n, congrFun h4 n⟩
  · intro n hn
    exact accelerate_flow_ne params obstacles grid n hn
  · intro ii hii
    rcases accel_range_at params obstacles grid params.nx ii hii with
      ⟨r1, r3, r5, r6, r7, r8⟩
    have e : accelerate_flow params obstacles grid
        = (List.range params.nx).foldl (accelCell params obstacles) grid :=
      rfl
    constructor
    · intro hguard
      have hg : accelGuard params obstacles grid ii = true :=
        (accelGuard_iff params obstacles grid ii).mpr hguard
      rcases accelCell_at_true params obstacles grid ii hg with
        ⟨a1, a5, a8, a3, a6, a7⟩
      exact ⟨by rw [e, r1, a1], by rw [e, r5, a5], by rw [e, r8, a8],
        by rw [e, r3, a3], by rw [e, r6, a6], by rw [e, r7, a7]⟩
    · intro hguard
      have hg : accelGuard params obstacles grid ii = false := by
        rcases Bool.eq_false_or_eq_true
          (accelGuard params obstacles grid ii) with h | h
        · exact absurd ((accelGuard_iff params obstacles grid ii).mp h)
            hguard
        · exact h
      rcases accelCell_at_false params obstacles grid ii hg with
        ⟨a1, a5, a8, a3, a6, a7⟩
      exact ⟨by rw [e, r1, a1], by rw [e, r3, a3], by rw [e, r5, a5],
        by rw [e, r6, a6], by rw [e, r7, a7], by rw [e, r8, a8]⟩

/-- Witness for claim C4 at a concrete fluid cell whose guard holds. -/
theorem claim_C4_witness :
    (obstNone (0 + (pAcc.ny - 2) * pAcc.nx) = false ∧
      gUnit.s3 (0 + (pAcc.ny - 2) * pAcc.nx) - accelW1 pAcc > 0 ∧
      gUnit.s6 (0 + (pAcc.ny - 2) * pAcc.nx) - accelW2 pAcc > 0 ∧
      gUnit.s7 (0 + (pAcc.ny - 2) * pAcc.nx) - accelW2 pAcc > 0) ∧
    (accelerate_flow pAcc obstNone gUnit).s1
        (0 + (pAcc.ny - 2) * pAcc.nx)
      = gUnit.s1 (0 + (pAcc.ny - 2) * pAcc.nx) + accelW1 pAcc :=
  ⟨⟨rfl, by norm_num [gUnit, pAcc, accelW1],
    by norm_num [gUnit, pAcc, accelW2],
    by norm_num [gUnit, pAcc, accelW2]⟩,
    (((claim_C4 pAcc obstNone gUnit).2.2 0 (by decide)).1
      ⟨rfl, by norm_num [gUnit, pAcc, accelW1],
        by norm_num [gUnit, pAcc, accelW2],
        by norm_num [gUnit, pAcc, accelW2]⟩).1⟩

/-- Counterexample to claim C5 as stated: with a negative acceleration
the guard of accelerate_flow still passes (it only tests the decremented
components), and an incremented component is driven below zero: on a
strictly positive buffer the updated f1 becomes negative. -/
theorem claim_C5_cex :
    (∀ n, 0 < gSmall.s0 n ∧ 0 < gSmall.s1 n ∧ 0 < gSmall.s2 n ∧
      0 < gSmall.s3 n ∧ 0 < gSmall.s4 n ∧ 0 < gSmall.s5 n ∧
      0 < gSmall.s6 n ∧ 0 < gSmall.s7 n ∧ 0 < gSmall.s8 n) ∧
    (accelerate_flow pNegAcc obstNone gSmall).s1 0 < 0 := by
  constructor
  · intro n
    refine ⟨?_, ?_, ?_, ?_, ?_, ?_, ?_, ?_, ?_⟩ <;> norm_num [gSmall]
  · norm_num [accelerate_flow, accelCell, accelGuard, accelW1, accelW2,
      pNegAcc, obstNone, gSmall, Function.update, List.range_succ]

/-- Claim C5, amended: on a state whose density components are all
strictly positive, and with density * accel non-negative (so the
injected weights are non-negative), every density component is still
strictly positive after the acceleration stage. -/
theorem claim_C5 (params : t_param) (obstacles : ℕ → Bool) (grid : soa)
    (hpos : ∀ n, 0 < grid.s0 n ∧ 0 < grid.s1 n ∧ 0 < grid.s2 n ∧
      0 < grid.s3 n ∧ 0 < grid.s4 n ∧ 0 < grid.s5 n ∧
      0 < grid.s6 n ∧ 0 < grid.s7 n ∧ 0 < grid.s8 n)
    (haccel : 0 ≤ params.density * params.accel) :
    ∀ n, 0 < (accelerate_flow params obstacles grid).s0 n ∧
      0 < (accelerate_flow params obstacles grid).s1 n ∧
      0 < (accelerate_flow params obstacles grid).s2 n ∧
      0 < (accelerate_flow params obstacles grid).s3 n ∧
      0 < (accelerate_flow params obstacles grid).s4 n ∧
      0 < (accelerate_flow params obstacles grid).s5 n ∧
      0 < (accelerate_flow params obstacles grid).s6 n ∧
      0 < (accelerate_flow params obstacles grid).s7 n ∧
      0 < (accelerate_flow params obstacles grid).s8 n := by
  intro n
  have hw1 : 0 ≤ accelW1 params := by
    unfold accelW1
    exact div_nonneg haccel (by norm_num)
  have hw2 : 0 ≤ accelW2 params := by
    unfold accelW2
    exact div_nonneg haccel (by norm_num)
  rcases accelerate_flow_s024 params obstacles grid with ⟨h0, h2, h4⟩
  obtain ⟨p0, p1, p2, p3, p4, p5, p6, p7, p8⟩ := hpos n
  refine ⟨by rw [congrFun h0 n]; exact p0, ?_,
    by rw [congrFun h2 n]; exact p2, ?_,
    by rw [congrFun h4 n]; exact p4, ?_, ?_, ?_, ?_⟩ <;>
  · by_cases hrow : ∃ ii, ii < params.nx ∧
        n = ii + (params.ny - 2) * params.nx
    · obtain ⟨ii, hii, rfl⟩ := hrow
      rcases accel_range_at params obstacles grid params.nx ii hii with
        ⟨r1, r3, r5, r6, r7, r8⟩
      have e : accelerate_flow params obstacles grid
          = (List.range params.nx).foldl (accelCell params obstacles)
            grid := rfl
      by_cases hg : accelGuard params obstacles grid ii
      · rcases accelCell_at_true params obstacles grid ii hg with
          ⟨a1, a5, a8, a3, a6, a7⟩
        rcases (accelGuard_iff params obstacles grid ii).mp hg with
          ⟨_, hg3, hg6, hg7⟩
        first
        | (rw [e, r1, a1]; exact add_pos_of_pos_of_nonneg p1 hw1)
        | (rw [e, r3, a3]; exact hg3)
        | (rw [e, r5, a5]; exact add_pos_of_pos_of_nonneg p5 hw2)
        | (rw [e, r6, a6]; exact hg6)
        | (rw [e, r7, a7]; exact hg7)
        | (rw [e, r8, a8]; exact add_pos_of_pos_of_nonneg p8 hw2)
      · have hgf : accelGuard params obstacles grid ii = false := by
          simpa using hg
        rcases accelCell_at_false params obstacles grid ii hgf with
          ⟨a1, a5, a8, a3, a6, a7⟩
        first
        | (rw [e, r1, a1]; exact p1)
        | (rw [e, r3, a3]; exact p3)
        | (rw [e, r5, a5]; exact p5)
        | (rw [e, r6, a6]; exact p6)
        | (rw [e, r7, a7]; exact p7)
        | (rw [e, r8, a8]; exact p8)
    · push_neg at hrow
      have hrow2 : ∀ ii, ii < params.nx →
          n ≠ ii + (params.ny - 2) * params.nx := hrow
      rcases accelerate_flow_ne params obstacles grid n hrow2 with
        ⟨k1, k3, k5, k6, k7, k8⟩
      first
      | (rw [k1]; exact p1)
      | (rw [k3]; exact p3)
      | (rw [k5]; exact p5)
      | (rw [k6]; exact p6)
      | (rw [k7]; exact p7)
      | (rw [k8]; exact p8)

/-- Witness for claim C5 at a concrete positive input with accel = 1. -/
theorem claim_C5_witness :
    (∀ n, 0 < gUnit.s0 n ∧ 0 < gUnit.s1 n ∧ 0 < gUnit.s2 n ∧
      0 < gUnit.s3 n ∧ 0 < gUnit.s4 n ∧ 0 < gUnit.s5 n ∧
      0 < gUnit.s6 n ∧ 0 < gUnit.s7 n ∧ 0 < gUnit.s8 n) ∧
    0 ≤ pAcc.density * pAcc.accel ∧
    0 < (accelerate_flow pAcc obstNone gUnit).s1 0 :=
  ⟨fun n => by
      refine ⟨?_, ?_, ?_, ?_, ?_, ?_, ?_, ?_, ?_⟩ <;> norm_num [gUnit],
    by norm_num [pAcc],
    (claim_C5 pAcc obstNone gUnit
      (fun n => by
        refine ⟨?_, ?_, ?_, ?_, ?_, ?_, ?_, ?_, ?_⟩ <;> norm_num [gUnit])
      (by norm_num [pAcc]) 0).2.1⟩

/-- Claim C6: after the driver loop the program prints the Reynolds
number Re = av_velocity * reynolds_dim / viscosity with viscosity
(1/6)*(2/omega - 1), where the average velocity is recomputed by
av_velocity from the final distribution buffer (the result of maxIters
timesteps from the initial state), not taken from the stored series. -/
theorem claim_C6 (sqrtf : ℚ → ℚ) (params : t_param)
    (obstacles : ℕ → Bool) :
    main_reynolds sqrtf params obstacles
      = av_velocity sqrtf params obstacles
          (run_grid params obstacles (init_grid params) params.maxIters)
        * (params.reynolds_dim : ℚ) / (1 / 6 * (2 / params.omega - 1)) :=
  rfl

/-- Claim C7: every final-state line for an obstacle cell has zero
velocity components and norm and pressure density * (1/3), and the
obstacle-flag field of every line is read at the transposed index
ii * nx + jj. -/
theorem claim_C7 (sqrtf : ℚ → ℚ) (params : t_param)
    (obstacles : ℕ → Bool) (grid : soa) (ii jj : ℕ) :
    (obstacles (ii + jj * params.nx) = true →
      (write_line sqrtf params obstacles grid ii jj).lu_x = 0 ∧
      (write_line sqrtf params obstacles grid ii jj).lu_y = 0 ∧
      (write_line sqrtf params obstacles grid ii jj).lu = 0 ∧
      (write_line sqrtf params obstacles grid ii jj).lpressure
        = params.density * (1 / 3)) ∧
    (write_line sqrtf params obstacles grid ii jj).lflag
      = obstacles (ii * params.nx + jj) := by
  constructor
  · intro h
    refine ⟨?_, ?_, ?_, ?_⟩ <;> simp [write_line, h, c_sq]
  · by_cases h : obstacles (ii + jj * params.nx) <;> simp [write_line, h]

/-- Witness for claim C7 at a concrete all-obstacle 1 x 1 input. -/
theorem claim_C7_witness :
    obstAll (0 + 0 * pOne.nx) = true ∧
    (write_line id pOne obstAll gUnit 0 0).lu_x = 0 ∧
    (write_line id pOne obstAll gUnit 0 0).lpressure
      = pOne.density * (1 / 3) ∧
    (write_line id pOne obstAll gUnit 0 0).lflag
      = obstAll (0 * pOne.nx + 0) :=
  ⟨rfl, ((claim_C7 id pOne obstAll gUnit 0 0).1 rfl).1,
    ((claim_C7 id pOne obstAll gUnit 0 0).1 rfl).2.2.2,
    (claim_C7 id pOne obstAll gUnit 0 0).2⟩

/-- Counterexample to claim C8 as stated: every distribution-array
allocation and the av_vels allocation fail (none), yet initialise raises
no diagnostic because only the obstacle allocation is tested. -/
theorem claim_C8_cex :
    allocReported (initialise_allocs (fun _ => none) (fun _ => none)
      (some ()) none) = false :=
  rfl

/-- Claim C8, amended: of all allocations performed at initialization,
only the obstacle-mask allocation is checked; its failure aborts with a
diagnostic, while failures of the eighteen distribution-array
allocations and of the average-velocity allocation are not detected and
their results flow on unchecked. -/
theorem claim_C8 (gridAllocs tmpAllocs : Fin 9 → Option Unit)
    (avAlloc : Option Unit) :
    initialise_allocs gridAllocs tmpAllocs none avAlloc
      = Except.error allocDiag.obstaclesAllocFailed ∧
    allocReported
      (initialise_allocs gridAllocs tmpAllocs (some ()) avAlloc)
      = false :=
  ⟨rfl, rfl⟩

/-- Claim C9: on an all-obstacle grid, two invocations of the fused
kernel (with the buffer swap between them) return every distribution
value at every cell to its starting value exactly. -/
theorem claim_C9 (params : t_param) (obstacles : ℕ → Bool) (grid : soa)
    (hobs : ∀ n, obstacles n = true) (ii jj : ℕ)
    (hii : ii < params.nx) (hjj : jj < params.ny) :
    (fusion_grid params obstacles (fusion_grid params obstacles grid)).s0
        (ii + jj * params.nx) = grid.s0 (ii + jj * params.nx) ∧
    (fusion_grid params obstacles (fusion_grid params obstacles grid)).s1
        (ii + jj * params.nx) = grid.s1 (ii + jj * params.nx) ∧
    (fusion_grid params obstacles (fusion_grid params obstacles grid)).s2
        (ii + jj * params.nx) = grid.s2 (ii + jj * params.nx) ∧
    (fusion_grid params obstacles (fusion_grid params obstacles grid)).s3
        (ii + jj * params.nx) = grid.s3 (ii + jj * params.nx) ∧
    (fusion_grid params obstacles (fusion_grid params obstacles grid)).s4
        (ii + jj * params.nx) = grid.s4 (ii + jj * params.nx) ∧
    (fusion_grid params obstacles (fusion_grid params obstacles grid)).s5
        (ii + jj * params.nx) = grid.s5 (ii + jj * params.nx) ∧
    (fusion_grid params obstacles (fusion_grid params obstacles grid)).s6
        (ii + jj * params.nx) = grid.s6 (ii + jj * params.nx) ∧
    (fusion_grid params obstacles (fusion_grid params obstacles grid)).s7
        (ii + jj * params.nx) = grid.s7 (ii + jj * params.nx) ∧
    (fusion_grid params obstacles (fusion_grid params obstacles grid)).s8
        (ii + jj * params.nx) = grid.s8 (ii + jj * params.nx) := by
  have hnx : 0 < params.nx := Nat.lt_of_le_of_lt (Nat.zero_le ii) hii
  have hny : 0 < params.ny := Nat.lt_of_le_of_lt (Nat.zero_le jj) hjj
  refine ⟨?_, ?_, ?_, ?_, ?_, ?_, ?_, ?_, ?_⟩
  · rw [fusion_obs_s0 params obstacles _ hii hjj (hobs _),
      fusion_obs_s0 params obstacles grid hii hjj (hobs _)]
  · rw [fusion_obs_s1 params obstacles _ hii hjj (hobs _),
      fusion_obs_s3 params obstacles grid (x_e_lt hnx ii) hjj (hobs _),
      x_w_x_e hii]
  · rw [fusion_obs_s2 params obstacles _ hii hjj (hobs _),
      fusion_obs_s4 params obstacles grid hii (y_n_lt hny jj) (hobs _),
      y_s_y_n hjj]
  · rw [fusion_obs_s3 params obstacles _ hii hjj (hobs _),
      fusion_obs_s1 params obstacles grid (x_w_lt hii) hjj (hobs _),
      x_e_x_w hii]
  · rw [fusion_obs_s4 params obstacles _ hii hjj (hobs _),
      fusion_obs_s2 params obstacles grid hii (y_s_lt hjj) (hobs _),
      y_n_y_s hjj]
  · rw [fusion_obs_s5 params obstacles _ hii hjj (hobs _),
      fusion_obs_s7 params obstacles grid (x_e_lt hnx ii)
        (y_n_lt hny jj) (hobs _),
      x_w_x_e hii, y_s_y_n hjj]
  · rw [fusion_obs_s6 params obstacles _ hii hjj (hobs _),
      fusion_obs_s8 params obstacles grid (x_w_lt hii)
        (y_n_lt hny jj) (hobs _),
      x_e_x_w hii, y_s_y_n hjj]
  · rw [fusion_obs_s7 params obstacles _ hii hjj (hobs _),
      fusion_obs_s5 params obstacles grid (x_w_lt hii)
        (y_s_lt hjj) (hobs _),
      x_e_x_w hii, y_n_y_s hjj]
  · rw [fusion_obs_s8 params obstacles _ hii hjj (hobs _),
      fusion_obs_s6 params obstacles grid (x_e_lt hnx ii)
        (y_s_lt hjj) (hobs _),
      x_w_x_e hii, y_n_y_s hjj]

/-- Witness for claim C9 at a concrete all-obstacle 1 x 1 input. -/
theorem claim_C9_witness :
    (∀ n, obstAll n = true) ∧
    (fusion_grid pOne obstAll (fusion_grid pOne obstAll gNine)).s1
        (0 + 0 * pOne.nx) = gNine.s1 (0 + 0 * pOne.nx) :=
  ⟨fun _ => rfl,
    (claim_C9 pOne obstAll gNine (fun _ => rfl) 0 0 (by decide)
      (by decide)).2.1⟩

/-- Claim C10: on an all-obstacle grid the fused kernel's fluid-cell
count stays 0 and its velocity sum stays 0, and its returned value is
the unguarded division of the sum by the zero count; av_velocity, used
for the Reynolds number, divides by the same unguarded zero count. -/
theorem claim_C10 (sqrtf : ℚ → ℚ) (params : t_param)
    (obstacles : ℕ → Bool) (grid : soa)
    (hobs : ∀ n, obstacles n = true) :
    fusion_tot_cells params obstacles = 0 ∧
    fusion_tot_u sqrtf params obstacles grid = 0 ∧
    fusion sqrtf params obstacles grid
      = fusion_tot_u sqrtf params obstacles grid
        / (fusion_tot_cells params obstacles : ℚ) ∧
    av_tot_cells params obstacles = 0 ∧
    av_velocity sqrtf params obstacles grid
      = av_tot_u sqrtf params obstacles grid
        / (av_tot_cells params obstacles : ℚ) := by
  refine ⟨?_, ?_, rfl, ?_, rfl⟩
  · apply Finset.sum_eq_zero
    intro jj _
    apply Finset.sum_eq_zero
    intro ii _
    simp [cellCount, hobs]
  · apply Finset.sum_eq_zero
    intro jj _
    apply Finset.sum_eq_zero
    intro ii _
    simp [cellU, hobs]
  · apply Finset.sum_eq_zero
    intro jj _
    apply Finset.sum_eq_zero
    intro ii _
    simp [hobs]

/-- Witness for claim C10 at a concrete all-obstacle 1 x 1 input. -/
theorem claim_C10_witness :
    (∀ n, obstAll n = true) ∧
    fusion_tot_cells pOne obstAll = 0 ∧
    av_tot_cells pOne obstAll = 0 :=
  ⟨fun _ => rfl,
    (claim_C10 id pOne obstAll gUnit (fun _ => rfl)).1,
    (claim_C10 id pOne obstAll gUnit (fun _ => rfl)).2.2.2.1⟩

end D2Q9
